import Mathlib

/-!
Shallow embedding of the `nolife` crate: static memory management without
lifetimes.  The crate manages a single heap value through a protocol of
branded references:

* `src/owned.rs` — `OwnershipKind` (with the `Heap` instance), `Owned`,
  `Husk`, the `heap!` macro;
* `src/reference.rs` — `Ref<T, B, LEVEL>`, `RefMut = Ref<_, _, 0>`,
  `split`/`join`/`reconstruct`, `Deref`/`DerefMut`, the `borrow!` macro;
* `src/brand.rs`, `src/brand/closure.rs` — `IsBrand::duplicate`, `Brand<F>`.

Heap allocation is modelled by an explicit memory state (`Mem`): an
allocation counter plus an association list from locations to values.
A Rust `Box<T>` is an owning pointer, modelled as a location; `NonNull<T>`
is likewise a location.

Rust's compile-time identities are modelled as data: the brand type
parameter `B` (a zero-sized unique closure type in the source) becomes a
`Nat` tag inside `Brand`, and the const generic `LEVEL` becomes a `Nat`
field of `Ref`.  The applicability conditions that the Rust type system
enforces on the operations (same brand, same level, `LEVEL - 1` must not
underflow, `DerefMut` only for `LEVEL = 0`) are transcribed from the item
signatures as explicit `Prop`-valued definitions.
-/

namespace Nolife

/-- A raw memory location (`NonNull<T>` / the address held by a `Box<T>`). -/
abbrev Loc := Nat

/-- Explicit heap memory: an allocation counter and the allocated cells. -/
structure Mem (T : Type) where
  next : Loc
  store : List (Loc × T)
  deriving DecidableEq, Repr

/-- The empty heap. -/
def Mem.empty {T : Type} : Mem T := { next := 0, store := [] }

/-- `Box::new(v)`: allocate a fresh cell holding `v`, return the new memory
and the location. -/
def Mem.alloc {T : Type} (m : Mem T) (v : T) : Mem T × Loc :=
  ({ next := m.next + 1, store := (m.next, v) :: m.store }, m.next)

/-- Read the cell at `l` (dereferencing a raw pointer); `none` when `l` is
dangling. -/
def Mem.read {T : Type} (m : Mem T) (l : Loc) : Option T :=
  (m.store.find? (fun p => p.1 == l)).map (·.2)

/-- Overwrite the cell at `l` with `v` (writing through a mutable
reference). -/
def Mem.write {T : Type} (m : Mem T) (l : Loc) (v : T) : Mem T :=
  { m with store := m.store.map (fun p => if p.1 == l then (l, v) else p) }

/-- Deallocate the cell at `l` (dropping the `Box`). -/
def Mem.free {T : Type} (m : Mem T) (l : Loc) : Mem T :=
  { m with store := m.store.filter (fun p => p.1 != l) }

/-- Well-formedness: every allocated location is below the allocation
counter, so fresh allocations never collide. -/
def Mem.wf {T : Type} (m : Mem T) : Prop :=
  ∀ p ∈ m.store, p.1 < m.next

instance {T : Type} (m : Mem T) : Decidable (m.wf) :=
  List.decidableBAll _ m.store

/-- `Brand<F>` from `src/brand/closure.rs`: a zero-sized value whose type
parameter `F` (a unique closure type per `brand!` invocation) is the real
identity.  The type identity is modelled as a `Nat` tag. -/
structure Brand where
  tag : Nat
  deriving DecidableEq, Repr

/-- `IsBrand::duplicate` for `Brand<F>` (`src/brand/closure.rs` line 34):
`(self, Self(PhantomData))` — two brands of the same type. -/
def Brand.duplicate (b : Brand) : Brand × Brand :=
  (b, { tag := b.tag })

/-- The `brand!` macro: `Brand::new(|| ())` with a fresh closure type.  The
freshness of the closure type is modelled by the caller supplying the tag;
distinct invocations have distinct tags. -/
def Brand.mk_new (tag : Nat) : Brand :=
  { tag := tag }

/-!
The `Heap` ownership kind (`src/owned.rs`): `Husk = ()`,
`Inner = Box<T>` (modelled as the owned location).
-/
namespace Heap

/-- `Heap`'s associated `Husk` type is the unit type. -/
abbrev HuskTy : Type := Unit

/-- `<Heap as OwnershipKind<T>>::split`: `Box::into_raw` — hand out the raw
location, residual husk is `()`.  No memory effect. -/
def split (val : Loc) : HuskTy × Loc :=
  ((), val)

/-- `<Heap as OwnershipKind<T>>::join`: `Box::from_raw` — the raw location
becomes the owning pointer again.  No memory effect. -/
def join (husk : HuskTy) (ptr : Loc) : Loc :=
  ptr

/-- `<Heap as OwnershipKind<T>>::move_out`: `*val` — read the value out of
the box and deallocate it.  Returns `none` only on a dangling location,
which a safely-constructed `Owned` never holds. -/
def move_out {T : Type} (m : Mem T) (val : Loc) : Option T × Mem T :=
  (m.read val, m.free val)

end Heap

/-- `Owned<T, Heap>` (`src/owned.rs`): wraps `inner : Box<T>`. -/
structure Owned (T : Type) where
  inner : Loc
  deriving DecidableEq, Repr

/-- `Husk<T, B, Heap>` (`src/owned.rs`): residual `inner : ()` plus the
brand. -/
structure Husk where
  inner : Heap.HuskTy
  brand : Brand
  deriving DecidableEq, Repr

/-- `Husk::into_inner`: forget brand information. -/
def Husk.into_inner (h : Husk) : Heap.HuskTy :=
  h.inner

/-- `Owned::into_inner`: `Kind::move_out(self.inner)`. -/
def Owned.into_inner {T : Type} (m : Mem T) (o : Owned T) : Option T × Mem T :=
  Heap.move_out m o.inner

/-- `Owned::from_inner`: wrap an inner pointer. -/
def Owned.from_inner {T : Type} (inner : Loc) : Owned T :=
  { inner := inner }

/-- `Owned::split`: `Kind::split(self.inner)` then pack the husk with the
brand. -/
def Owned.split {T : Type} (o : Owned T) (brand : Brand) : Husk × Loc :=
  let (inner, ptr) := Heap.split o.inner
  ({ inner := inner, brand := brand }, ptr)

/-- The `heap!` macro: `Owned::from_inner(Box::new(val))`. -/
def heapNew {T : Type} (m : Mem T) (v : T) : Mem T × Owned T :=
  let (m', l) := m.alloc v
  (m', Owned.from_inner l)

/-- `Ref<T, B, LEVEL>` (`src/reference.rs`): a raw location plus a brand;
the const generic `LEVEL` is modelled as a field. -/
structure Ref (T : Type) where
  ptr : Loc
  brand : Brand
  level : Nat
  deriving DecidableEq, Repr

/-- `Ref::new`: pack a pointer and a brand at a given level. -/
def Ref.mk_new {T : Type} (ptr : Loc) (brand : Brand) (level : Nat) : Ref T :=
  { ptr := ptr, brand := brand, level := level }

/-- `Ref::split`: duplicate the brand, yield two references at
`LEVEL + 1` on the same pointer.  Takes no memory argument: the underlying
value is untouched. -/
def Ref.split {T : Type} (r : Ref T) : Ref T × Ref T :=
  let (brand1, brand2) := r.brand.duplicate
  (Ref.mk_new r.ptr brand1 (r.level + 1), Ref.mk_new r.ptr brand2 (r.level + 1))

/-- `Ref::join`: `fn join(self, _: Self) -> Ref<T, B, {LEVEL - 1}>` — the
second operand is ignored; the result reuses `self.ptr` and `self.brand`
at level `LEVEL - 1`.  Takes no memory argument: the underlying value is
untouched. -/
def Ref.join {T : Type} (r : Ref T) (other : Ref T) : Ref T :=
  Ref.mk_new r.ptr r.brand (r.level - 1)

/-- Static applicability of `Ref::join`, transcribed from its signature
`fn join(self, _: Self) -> Ref<T, B, {LEVEL - 1}>`: both operands have the
same type `Ref<T, B, LEVEL>` (same brand `B`, same `LEVEL`), and the const
expression `LEVEL - 1` must evaluate — for `LEVEL = 0` the `usize`
subtraction underflows and the program is rejected, so `1 ≤ LEVEL`. -/
def joinTypeOk {T : Type} (a b : Ref T) : Prop :=
  a.brand = b.brand ∧ a.level = b.level ∧ 1 ≤ a.level

/-- `RefMut::reconstruct`: `Owned::from_inner(Kind::join(husk.into_inner(), self.ptr))`. -/
def Ref.reconstruct {T : Type} (r : Ref T) (husk : Husk) : Owned T :=
  Owned.from_inner (Heap.join husk.into_inner r.ptr)

/-- Static applicability of `RefMut::reconstruct`, transcribed from its
signature `fn reconstruct<Kind>(self: RefMut<T, B>, husk: Husk<T, B, Kind>)`:
the receiver is a `RefMut` (`Ref<T, B, 0>`, so level 0) and the husk
carries the identical brand type `B`. -/
def reconstructTypeOk {T : Type} (r : Ref T) (husk : Husk) : Prop :=
  r.level = 0 ∧ r.brand = husk.brand

/-- `Deref for Ref<T, B, LEVEL>` (any level): read the value at `ptr`. -/
def Ref.get {T : Type} (m : Mem T) (r : Ref T) : Option T :=
  m.read r.ptr

/-- Static applicability of mutable dereference, transcribed from
`impl<T, B> DerefMut for RefMut<T, B>` with `type RefMut<T, B> =
Ref<T, B, 0>`: the impl exists only at `LEVEL = 0`. -/
def derefMutOk {T : Type} (r : Ref T) : Prop :=
  r.level = 0

/-- `DerefMut for RefMut` used for a write `*r = v`: overwrite the cell at
`ptr`.  The impl exists only for `LEVEL = 0`, so a proof of that is
required. -/
def Ref.setThrough {T : Type} (m : Mem T) (r : Ref T) (v : T)
    (h : derefMutOk r) : Mem T :=
  m.write r.ptr v

/-- The `borrow!` macro: mint a fresh brand (tag supplied by the caller,
one per invocation), duplicate it into a husk brand and a ref brand, split
the owned value, and build the level-0 reference. -/
def borrow {T : Type} (o : Owned T) (tag : Nat) : Husk × Ref T :=
  let brand := Brand.mk_new tag
  let (husk_brand, ref_brand) := brand.duplicate
  let (husk, ptr) := o.split husk_brand
  (husk, Ref.mk_new ptr ref_brand 0)

end Nolife

namespace Nolife

/-- The concrete scenario of the spec, step 1: `heap!(0)` on the empty
memory — the resulting memory state. -/
def scenarioMem : Mem Nat := (heapNew (Mem.empty : Mem Nat) 0).1

/-- Scenario step 1 continued: the owned handle produced by `heap!(0)`. -/
def scenarioOwned : Owned Nat := (heapNew (Mem.empty : Mem Nat) 0).2

/-- Scenario step 2: the husk produced by `borrow!(owned)`. -/
def scenarioHusk : Husk := (borrow scenarioOwned 0).1

/-- Scenario step 2 continued: the level-0 reference from `borrow!(owned)`. -/
def scenarioR0 : Ref Nat := (borrow scenarioOwned 0).2

/-- Scenario step 3: the first level-1 reference from `r0.split()`. -/
def scenarioA : Ref Nat := scenarioR0.split.1

/-- Scenario step 3 continued: the second level-1 reference. -/
def scenarioB : Ref Nat := scenarioR0.split.2

/-- Scenario step 5: `a.join(b)`, back at level 0. -/
def scenarioJoined : Ref Nat := scenarioA.join scenarioB

/-- Scenario step 6: write 1 through the joined mutable reference. -/
def scenarioMem2 : Mem Nat := scenarioJoined.setThrough scenarioMem 1 rfl

/-- C1: Full-protocol scenario: starting from an owned value holding 0,
dividing it into a husk and a level-0 reference, splitting that reference
into two level-1 references `a` and `b`, reading through `a` and through
`b` both yield 0; after joining `a` and `b` back to level 0, writing 1
through the joined reference, reconstructing the owned value with the
husk, and extracting, the result equals 1. -/
theorem full_protocol_scenario :
    scenarioA.get scenarioMem = some 0 ∧
    scenarioB.get scenarioMem = some 0 ∧
    ((scenarioJoined.reconstruct scenarioHusk).into_inner scenarioMem2).1 = some 1 := by
  decide

/-- C2: Ownership round-trip: for every value `v`, creating an owned handle
from `v` (`heap!`) and then extracting it by ownership (`into_inner`)
returns exactly `v`, with no other effect: on a well-formed memory, the
store is restored to exactly what it was before the allocation. -/
theorem ownership_round_trip {T : Type} (m : Mem T) (v : T) (hm : m.wf) :
    ((heapNew m v).2.into_inner (heapNew m v).1).1 = some v ∧
    ((heapNew m v).2.into_inner (heapNew m v).1).2.store = m.store := by
  constructor
  · simp [heapNew, Mem.alloc, Owned.from_inner, Owned.into_inner,
      Heap.move_out, Mem.read]
  · simp only [heapNew, Mem.alloc, Owned.from_inner, Owned.into_inner,
      Heap.move_out, Mem.free, List.filter_cons]
    simp only [bne_self_eq_false, Bool.false_eq_true, if_neg, ite_false]
    exact List.filter_eq_self.mpr fun p hp => by
      simpa [bne_iff_ne] using Nat.ne_of_lt (hm p hp)

/-- Witness for C2 at a concrete input: the empty memory is well-formed and
allocating then extracting 5 yields 5 with the (empty) store restored. -/
theorem ownership_round_trip_witness :
    (Mem.empty : Mem Nat).wf ∧
    (((heapNew (Mem.empty : Mem Nat) 5).2.into_inner
        (heapNew (Mem.empty : Mem Nat) 5).1).1 = some 5 ∧
      ((heapNew (Mem.empty : Mem Nat) 5).2.into_inner
        (heapNew (Mem.empty : Mem Nat) 5).1).2.store = (Mem.empty : Mem Nat).store) :=
  ⟨by decide, ownership_round_trip Mem.empty 5 (by decide)⟩

/-- C3: Divide/reconstruct round-trip: for every value `v`, dividing
`heap!(v)` into a husk and a level-0 reference (`borrow!`), immediately
reconstructing the owned handle from that reference and husk without any
split or join, and then extracting, yields `v` unchanged. -/
theorem divide_reconstruct_round_trip {T : Type} (m : Mem T) (v : T) (tag : Nat) :
    let s := heapNew m v
    let br := borrow s.2 tag
    ((br.2.reconstruct br.1).into_inner s.1).1 = some v := by
  simp [heapNew, Mem.alloc, Owned.from_inner, Owned.into_inner, borrow,
    Owned.split, Heap.split, Brand.duplicate, Brand.mk_new, Ref.mk_new,
    Ref.reconstruct, Heap.join, Husk.into_inner, Heap.move_out, Mem.read]

/-- C4: Split/join round-trip: splitting a level-0 reference into two
level-1 references and immediately joining them back yields a reference
equal to the original: same raw location, and it can be paired with the
same husk to reconstruct the same owned value; the stored value read
through it is unchanged (split and join take no memory argument). -/
theorem split_join_round_trip {T : Type} (r : Ref T) (husk : Husk)
    (m : Mem T) (h0 : r.level = 0) :
    (r.split.1.join r.split.2) = r ∧
    (r.split.1.join r.split.2).reconstruct husk = r.reconstruct husk ∧
    (r.split.1.join r.split.2).get m = r.get m := by
  refine ⟨?_, ?_, ?_⟩ <;> rfl

/-- Witness for C4 at a concrete input: a level-0 reference at location 0
with brand tag 0, an arbitrary husk, the empty memory. -/
theorem split_join_round_trip_witness :
    (Ref.mk_new (T := Nat) 0 (Brand.mk_new 0) 0).level = 0 ∧
    (((Ref.mk_new (T := Nat) 0 (Brand.mk_new 0) 0).split.1.join
        (Ref.mk_new (T := Nat) 0 (Brand.mk_new 0) 0).split.2) =
        Ref.mk_new (T := Nat) 0 (Brand.mk_new 0) 0 ∧
      ((Ref.mk_new (T := Nat) 0 (Brand.mk_new 0) 0).split.1.join
        (Ref.mk_new (T := Nat) 0 (Brand.mk_new 0) 0).split.2).reconstruct
          { inner := (), brand := Brand.mk_new 0 } =
        (Ref.mk_new (T := Nat) 0 (Brand.mk_new 0) 0).reconstruct
          { inner := (), brand := Brand.mk_new 0 } ∧
      ((Ref.mk_new (T := Nat) 0 (Brand.mk_new 0) 0).split.1.join
        (Ref.mk_new (T := Nat) 0 (Brand.mk_new 0) 0).split.2).get
          (Mem.empty : Mem Nat) =
        (Ref.mk_new (T := Nat) 0 (Brand.mk_new 0) 0).get (Mem.empty : Mem Nat)) :=
  ⟨rfl, split_join_round_trip (Ref.mk_new 0 (Brand.mk_new 0) 0)
    { inner := (), brand := Brand.mk_new 0 } Mem.empty rfl⟩

/-- C5: Level discipline: for every reference at level `L`, `split` always
succeeds, yields exactly two child references at level `L + 1`, and does
not modify the underlying value; `join` is applicable only when `L ≥ 1`
(its result type `Ref<T, B, {LEVEL - 1}>` does not evaluate at `L = 0`)
and, on two references of the same type (same brand and level `L`),
consumes both and yields one reference at level `L - 1`. -/
theorem level_discipline {T : Type} (r a b : Ref T) (m : Mem T)
    (hj : joinTypeOk a b) :
    r.split.1.level = r.level + 1 ∧
    r.split.2.level = r.level + 1 ∧
    r.split.1.get m = r.get m ∧
    r.split.2.get m = r.get m ∧
    1 ≤ a.level ∧
    (a.join b).level = a.level - 1 := by
  exact ⟨rfl, rfl, rfl, rfl, hj.2.2, rfl⟩

/-- Witness for C5 at a concrete input: two identically-branded level-1
references are joinable and the equations hold. -/
theorem level_discipline_witness :
    joinTypeOk (Ref.mk_new (T := Nat) 0 (Brand.mk_new 0) 1)
      (Ref.mk_new (T := Nat) 0 (Brand.mk_new 0) 1) ∧
    ((Ref.mk_new (T := Nat) 3 (Brand.mk_new 2) 0).split.1.level =
        (Ref.mk_new (T := Nat) 3 (Brand.mk_new 2) 0).level + 1 ∧
      (Ref.mk_new (T := Nat) 3 (Brand.mk_new 2) 0).split.2.level =
        (Ref.mk_new (T := Nat) 3 (Brand.mk_new 2) 0).level + 1 ∧
      (Ref.mk_new (T := Nat) 3 (Brand.mk_new 2) 0).split.1.get
          (Mem.empty : Mem Nat) =
        (Ref.mk_new (T := Nat) 3 (Brand.mk_new 2) 0).get (Mem.empty : Mem Nat) ∧
      (Ref.mk_new (T := Nat) 3 (Brand.mk_new 2) 0).split.2.get
          (Mem.empty : Mem Nat) =
        (Ref.mk_new (T := Nat) 3 (Brand.mk_new 2) 0).get (Mem.empty : Mem Nat) ∧
      1 ≤ (Ref.mk_new (T := Nat) 0 (Brand.mk_new 0) 1).level ∧
      ((Ref.mk_new (T := Nat) 0 (Brand.mk_new 0) 1).join
          (Ref.mk_new (T := Nat) 0 (Brand.mk_new 0) 1)).level =
        (Ref.mk_new (T := Nat) 0 (Brand.mk_new 0) 1).level - 1) :=
  ⟨⟨rfl, rfl, by decide⟩,
    level_discipline (Ref.mk_new 3 (Brand.mk_new 2) 0)
      (Ref.mk_new 0 (Brand.mk_new 0) 1) (Ref.mk_new 0 (Brand.mk_new 0) 1)
      Mem.empty ⟨rfl, rfl, by decide⟩⟩

/-- C6: Read-after-split immutability: a reference at any level `L ≥ 1`
exposes no mutable-access operation — the `DerefMut` impl exists only for
`RefMut = Ref<T, B, 0>`, so its applicability condition fails at every
level above 0 — while read-only dereference is available at every level
(it is the unconditional `Deref` impl reading the cell at `ptr`). -/
theorem read_after_split_immutability {T : Type} (m : Mem T) (r : Ref T)
    (hL : 0 < r.level) :
    ¬ derefMutOk r ∧
    (∀ r' : Ref T, derefMutOk r' ↔ r'.level = 0) ∧
    r.get m = m.read r.ptr := by
  refine ⟨fun h => ?_, fun r' => Iff.rfl, rfl⟩
  rw [derefMutOk] at h
  omega

/-- Witness for C6 at a concrete input: a level-1 reference. -/
theorem read_after_split_immutability_witness :
    0 < (Ref.mk_new (T := Nat) 0 (Brand.mk_new 0) 1).level ∧
    (¬ derefMutOk (Ref.mk_new (T := Nat) 0 (Brand.mk_new 0) 1) ∧
      (∀ r' : Ref Nat, derefMutOk r' ↔ r'.level = 0) ∧
      (Ref.mk_new (T := Nat) 0 (Brand.mk_new 0) 1).get (Mem.empty : Mem Nat) =
        (Mem.empty : Mem Nat).read (Ref.mk_new (T := Nat) 0 (Brand.mk_new 0) 1).ptr) :=
  ⟨by decide, read_after_split_immutability Mem.empty
    (Ref.mk_new 0 (Brand.mk_new 0) 1) (by decide)⟩

/-- C7: Cross-origin rejection: two independently created owned values are
divided with distinct brands (each `borrow!` invocation mints a distinct
brand type, modelled by distinct tags); joining a reference from one
division with a reference from the other (before or after a split), and
reconstructing with a reference from one division and a husk from the
other, all fail the static applicability conditions transcribed from the
signatures, which demand the identical brand type. -/
theorem cross_origin_rejection {T : Type} (o1 o2 : Owned T) (t1 t2 : Nat)
    (hne : t1 ≠ t2) :
    let d1 := borrow o1 t1
    let d2 := borrow o2 t2
    ¬ joinTypeOk (d1.2.split.1) (d2.2.split.1) ∧
    ¬ joinTypeOk (d1.2.split.2) (d2.2.split.2) ∧
    ¬ reconstructTypeOk d1.2 d2.1 ∧
    ¬ reconstructTypeOk d2.2 d1.1 := by
  exact ⟨fun h => hne (congrArg Brand.tag h.1),
    fun h => hne (congrArg Brand.tag h.1),
    fun h => hne (congrArg Brand.tag h.2),
    fun h => hne (congrArg Brand.tag h.2).symm⟩

/-- Witness for C7 at a concrete input: two owned values divided with tags
0 and 1. -/
theorem cross_origin_rejection_witness :
    (0 : Nat) ≠ 1 ∧
    (¬ joinTypeOk ((borrow (Owned.from_inner (T := Nat) 0) 0).2.split.1)
        ((borrow (Owned.from_inner (T := Nat) 1) 1).2.split.1) ∧
      ¬ joinTypeOk ((borrow (Owned.from_inner (T := Nat) 0) 0).2.split.2)
        ((borrow (Owned.from_inner (T := Nat) 1) 1).2.split.2) ∧
      ¬ reconstructTypeOk (borrow (Owned.from_inner (T := Nat) 0) 0).2
        (borrow (Owned.from_inner (T := Nat) 1) 1).1 ∧
      ¬ reconstructTypeOk (borrow (Owned.from_inner (T := Nat) 1) 1).2
        (borrow (Owned.from_inner (T := Nat) 0) 0).1) :=
  ⟨by decide, cross_origin_rejection (Owned.from_inner 0) (Owned.from_inner 1)
    0 1 (by decide)⟩

/-- C8: Infallibility: the heap strategy's divide is total and returns the
husk-pointer pair unconditionally; `Owned::split` likewise; and extraction
(`into_inner` / `move_out`) on a valid container (one whose location is
allocated) returns the stored value, never a failure value.  None of the
operations has an error branch; the only failure mode outside the model is
allocator exhaustion, which aborts. -/
theorem infallibility {T : Type} (m : Mem T) (o : Owned T) (v : T)
    (hv : m.read o.inner = some v) :
    Heap.split o.inner = ((), o.inner) ∧
    (∀ b : Brand, o.split b = ({ inner := (), brand := b }, o.inner)) ∧
    (o.into_inner m).1 = some v := by
  exact ⟨rfl, fun b => rfl, hv⟩

/-- Witness for C8 at a concrete input: a one-cell memory holding 5 at
location 0 and the owned handle over that location. -/
theorem infallibility_witness :
    ({ next := 1, store := [(0, 5)] } : Mem Nat).read
        (Owned.from_inner (T := Nat) 0).inner = some 5 ∧
    (Heap.split (Owned.from_inner (T := Nat) 0).inner =
        ((), (Owned.from_inner (T := Nat) 0).inner) ∧
      (∀ b : Brand, (Owned.from_inner (T := Nat) 0).split b =
        ({ inner := (), brand := b }, (Owned.from_inner (T := Nat) 0).inner)) ∧
      ((Owned.from_inner (T := Nat) 0).into_inner
        ({ next := 1, store := [(0, 5)] } : Mem Nat)).1 = some 5) :=
  ⟨by decide, infallibility { next := 1, store := [(0, 5)] }
    (Owned.from_inner 0) 5 (by decide)⟩

/-- C10: Join ignores its second operand at runtime: for every two
same-typed references `a`, `b`, `b'` at level `L ≥ 1`, `a.join b` equals
`a.join b'` and carries exactly `a`'s raw location and `a`'s brand — `b`
is discarded with no runtime comparison; likewise `reconstruct` uses only
the reference's location (the heap husk's residual is the unit value), so
the reconstructed owned handle is independent of which same-typed husk is
supplied, and all origin checking is purely type-level. -/
theorem join_ignores_second_operand {T : Type} (a b b' : Ref T)
    (h1 : joinTypeOk a b) (h2 : joinTypeOk a b')
    (r : Ref T) (hr : r.level = 0) (k k' : Husk) :
    a.join b = a.join b' ∧
    (a.join b).ptr = a.ptr ∧
    (a.join b).brand = a.brand ∧
    r.reconstruct k = r.reconstruct k' ∧
    (r.reconstruct k).inner = r.ptr := by
  exact ⟨rfl, rfl, rfl, rfl, rfl⟩

/-- Witness for C10 at a concrete input: identically-typed level-1
references and two husks with the same brand. -/
theorem join_ignores_second_operand_witness :
    joinTypeOk (Ref.mk_new (T := Nat) 0 (Brand.mk_new 0) 1)
      (Ref.mk_new (T := Nat) 0 (Brand.mk_new 0) 1) ∧
    (Ref.mk_new (T := Nat) 4 (Brand.mk_new 3) 0).level = 0 ∧
    ((Ref.mk_new (T := Nat) 0 (Brand.mk_new 0) 1).join
        (Ref.mk_new (T := Nat) 0 (Brand.mk_new 0) 1) =
      (Ref.mk_new (T := Nat) 0 (Brand.mk_new 0) 1).join
        (Ref.mk_new (T := Nat) 0 (Brand.mk_new 0) 1) ∧
      ((Ref.mk_new (T := Nat) 0 (Brand.mk_new 0) 1).join
        (Ref.mk_new (T := Nat) 0 (Brand.mk_new 0) 1)).ptr =
        (Ref.mk_new (T := Nat) 0 (Brand.mk_new 0) 1).ptr ∧
      ((Ref.mk_new (T := Nat) 0 (Brand.mk_new 0) 1).join
        (Ref.mk_new (T := Nat) 0 (Brand.mk_new 0) 1)).brand =
        (Ref.mk_new (T := Nat) 0 (Brand.mk_new 0) 1).brand ∧
      (Ref.mk_new (T := Nat) 4 (Brand.mk_new 3) 0).reconstruct
        { inner := (), brand := Brand.mk_new 3 } =
        (Ref.mk_new (T := Nat) 4 (Brand.mk_new 3) 0).reconstruct
          { inner := (), brand := Brand.mk_new 3 } ∧
      ((Ref.mk_new (T := Nat) 4 (Brand.mk_new 3) 0).reconstruct
        { inner := (), brand := Brand.mk_new 3 }).inner =
        (Ref.mk_new (T := Nat) 4 (Brand.mk_new 3) 0).ptr) :=
  ⟨⟨rfl, rfl, by decide⟩, rfl,
    join_ignores_second_operand (Ref.mk_new 0 (Brand.mk_new 0) 1)
      (Ref.mk_new 0 (Brand.mk_new 0) 1) (Ref.mk_new 0 (Brand.mk_new 0) 1)
      ⟨rfl, rfl, by decide⟩ ⟨rfl, rfl, by decide⟩
      (Ref.mk_new 4 (Brand.mk_new 3) 0) rfl
      { inner := (), brand := Brand.mk_new 3 }
      { inner := (), brand := Brand.mk_new 3 }⟩

end Nolife
